import Mathlib

/-!
Shallow embedding of the design-system extraction engine (the in-page
`evaluate` callbacks of the extractor module) and proofs about it.

Conventions of the embedding:
* JS numbers are modelled by `ℚ` (exact arithmetic); JS integers by `Nat`/`Int`.
* JS strings are modelled by `String`; character-level work happens on `.data`.
* JS regular-expression matches used by the source are small fixed patterns;
  each is embedded as a deterministic scanner that is equivalent to the
  corresponding regex (the patterns involved never need backtracking beyond
  the optional single characters handled explicitly).
* DOM elements are modelled by structures carrying exactly the fields the
  embedded code reads.
-/

namespace DesignExtract

/-! ## Generic JS string helpers -/

/-- JS `String.prototype.toLowerCase` restricted to ASCII (all inputs in this
development are ASCII).  Defined on the raw character list so that proofs can
proceed by list induction. -/
def jsToLowerL (l : List Char) : List Char := l.map Char.toLower

/-- String wrapper for `jsToLowerL`. -/
def jsToLower (s : String) : String := ⟨jsToLowerL s.data⟩

/-- Digit run to its decimal value, as JS `parseInt` on a nonempty digit
string. -/
def digitsToNat (l : List Char) : Nat :=
  l.foldl (fun n c => n * 10 + (c.toNat - 48)) 0

/-- Hex digit list of a natural number (lowercase, no leading zeros, `"0"` for
zero), as JS `n.toString(16)` for a nonnegative integer. -/
def natToHexL (n : Nat) : List Char := Nat.toDigits 16 n

/-- Hex representation of an integer, as JS `z.toString(16)` after
`Math.round` (negative values get a leading `'-'`). -/
def intToHexL (z : Int) : List Char :=
  if z < 0 then '-' :: natToHexL z.natAbs else natToHexL z.toNat

/-- JS `String.prototype.padStart(2, "0")` on a character list. -/
def padStart2 (l : List Char) : List Char :=
  if l.length < 2 then List.replicate (2 - l.length) '0' ++ l else l

/-- JS `Math.round` on an exact rational: round half toward `+∞`. -/
def jsRound (q : ℚ) : ℤ := ⌊q + 1/2⌋

/-! ## The color-literal regular expressions

The source matches `/rgba?\((\d+),\s*(\d+),\s*(\d+)/` (unanchored,
case-sensitive) and `/hsla?\((\d+),\s*(\d+)%?,\s*(\d+)%?/`.  Since `\d+` is
followed by `','` or by `\s*(\d)` (and a digit is neither a comma nor
whitespace), greedy scanning without backtracking is equivalent to the regex
semantics. -/

/-- Match `(\d+),\s*(\d+),\s*(\d+)` at the head of the list. -/
def matchTriple (l : List Char) : Option (Nat × Nat × Nat) :=
  let d1 := l.takeWhile Char.isDigit
  let r1 := l.dropWhile Char.isDigit
  if d1.isEmpty then none else
  match r1 with
  | ',' :: r2 =>
    let r3 := r2.dropWhile Char.isWhitespace
    let d2 := r3.takeWhile Char.isDigit
    let r4 := r3.dropWhile Char.isDigit
    if d2.isEmpty then none else
    match r4 with
    | ',' :: r5 =>
      let r6 := r5.dropWhile Char.isWhitespace
      let d3 := r6.takeWhile Char.isDigit
      if d3.isEmpty then none
      else some (digitsToNat d1, digitsToNat d2, digitsToNat d3)
    | _ => none
  | _ => none

/-- Attempt to match `rgba?\(` (then the numeric triple) at this position. -/
def matchRgbAt (l : List Char) : Option (Nat × Nat × Nat) :=
  match l with
  | 'r' :: 'g' :: 'b' :: rest =>
    match rest with
    | 'a' :: '(' :: t => matchTriple t
    | '(' :: t => matchTriple t
    | _ => none
  | _ => none

/-- Leftmost match of `rgba?\((\d+),\s*(\d+),\s*(\d+)/`. -/
def findRgb : List Char → Option (Nat × Nat × Nat)
  | [] => none
  | c :: t =>
    match matchRgbAt (c :: t) with
    | some r => some r
    | none => findRgb t

/-- Match `(\d+),\s*(\d+)%?,\s*(\d+)` at the head of the list (the trailing
`%?` of the pattern constrains nothing). -/
def matchTripleHsl (l : List Char) : Option (Nat × Nat × Nat) :=
  let d1 := l.takeWhile Char.isDigit
  let r1 := l.dropWhile Char.isDigit
  if d1.isEmpty then none else
  match r1 with
  | ',' :: r2 =>
    let r3 := r2.dropWhile Char.isWhitespace
    let d2 := r3.takeWhile Char.isDigit
    let r4 := r3.dropWhile Char.isDigit
    let r4' := match r4 with
      | '%' :: t => t
      | _ => r4
    if d2.isEmpty then none else
    match r4' with
    | ',' :: r5 =>
      let r6 := r5.dropWhile Char.isWhitespace
      let d3 := r6.takeWhile Char.isDigit
      if d3.isEmpty then none
      else some (digitsToNat d1, digitsToNat d2, digitsToNat d3)
    | _ => none
  | _ => none

/-- Attempt to match `hsla?\(` (then the numeric triple) at this position. -/
def matchHslAt (l : List Char) : Option (Nat × Nat × Nat) :=
  match l with
  | 'h' :: 's' :: 'l' :: rest =>
    match rest with
    | 'a' :: '(' :: t => matchTripleHsl t
    | '(' :: t => matchTripleHsl t
    | _ => none
  | _ => none

/-- Leftmost match of `hsla?\((\d+),\s*(\d+)%?,\s*(\d+)%?/`. -/
def findHsl : List Char → Option (Nat × Nat × Nat)
  | [] => none
  | c :: t =>
    match matchHslAt (c :: t) with
    | some r => some r
    | none => findHsl t

/-! ## `normalizeColor` (Color Analyzer helper, source lines 1511–1540) -/

/-- JS float modulo (`fmod`) for a nonnegative dividend. -/
def jsMod (a b : ℚ) : ℚ := a - b * ⌊a / b⌋

/-- One RGB output channel of the HSL branch:
`Math.round((n + m) * 255).toString(16).padStart(2, '0')`. -/
def hslToHexChannel (n m : ℚ) : List Char :=
  padStart2 (intToHexL (jsRound ((n + m) * 255)))

/-- The numeric part of the HSL→RGB sector conversion of `normalizeColor`
(source lines 1522–1535): the pre-offset `(r, g, b)` triple and the offset
`m`. -/
def hslRgbm (h s l : Nat) : (ℚ × ℚ × ℚ) × ℚ :=
  let sq : ℚ := (s : ℚ) / 100
  let lq : ℚ := (l : ℚ) / 100
  let c : ℚ := (1 - |2 * lq - 1|) * sq
  let x : ℚ := c * (1 - |jsMod ((h : ℚ) / 60) 2 - 1|)
  let m : ℚ := lq - c / 2
  let rgb : ℚ × ℚ × ℚ :=
    if h < 60 then (c, x, 0)
    else if h < 120 then (x, c, 0)
    else if h < 180 then (0, c, x)
    else if h < 240 then (0, x, c)
    else if h < 300 then (x, 0, c)
    else (c, 0, x)
  (rgb, m)

/-- The HSL→RGB sector conversion of `normalizeColor` (source lines
1522–1537), producing the final hex character list. -/
def hslBranch (h s l : Nat) : List Char :=
  '#' :: (hslToHexChannel (hslRgbm h s l).1.1 (hslRgbm h s l).2 ++
    hslToHexChannel (hslRgbm h s l).1.2.1 (hslRgbm h s l).2 ++
    hslToHexChannel (hslRgbm h s l).1.2.2 (hslRgbm h s l).2)

/-- One RGB output channel of the rgb branch:
`parseInt(d).toString(16).padStart(2, "0")`. -/
def rgbHexChannel (n : Nat) : List Char := padStart2 (natToHexL n)

/-- Embedding of `normalizeColor` on the character list (source lines 1511–1540): rgb/rgba
match → `#rrggbb`; else hsl/hsla match → sector-converted `#rrggbb`; else the
lowercased input. -/
def normalizeColorL (l : List Char) : List Char :=
  match findRgb l with
  | some (r, g, b) => '#' :: (rgbHexChannel r ++ rgbHexChannel g ++ rgbHexChannel b)
  | none =>
    match findHsl l with
    | some (h, s, lt) => hslBranch h s lt
    | none => jsToLowerL l

/-- Embedding of `normalizeColor` (Color Analyzer, source lines 1511–1540). -/
def normalizeColor (color : String) : String := ⟨normalizeColorL color.data⟩

/-- The inline normalization applied to hover/focus-discovered state colors
before merging them into the palette (`extractBranding`, source lines
1161–1168): only the rgb/rgba pattern is converted to hex; everything else —
hsl/hsla included — is merely lowercased. -/
def brandingNormalizeL (l : List Char) : List Char :=
  match findRgb l with
  | some (r, g, b) => '#' :: (rgbHexChannel r ++ rgbHexChannel g ++ rgbHexChannel b)
  | none => jsToLowerL l

/-- String wrapper for `brandingNormalizeL`. -/
def brandingNormalize (color : String) : String := ⟨brandingNormalizeL color.data⟩

/-! ## Accessibility audit: missing alt text (source lines 4040–4053) -/

/-- An `<img>` element as read by the audit: its `alt` property (`""` when the
attribute is absent) and its `role` attribute (`none` when absent). -/
structure Img where
  alt : String
  role : Option String
deriving DecidableEq

/-- JS truthiness of `img.alt` negated: `!img.alt`. -/
def jsNotStr (s : String) : Bool := s == ""

/-- JS truthiness of `img.getAttribute('role')` negated: `!role`
(`null` and `""` are falsy). -/
def jsNotAttr : Option String → Bool
  | none => true
  | some s => s == ""

/-- JS strict equality `b === s` between a boolean and a string: always
`false`, since `===` never equates values of different types.  The source's
condition `!img.getAttribute('role') === 'presentation'` parses as
`(!img.getAttribute('role')) === 'presentation'`, which is exactly this. -/
def jsStrictEqBoolStr (_b : Bool) (_s : String) : Bool := false

/-- The per-image condition of the missing-alt-text loop (source line 4042):
`!img.alt && !img.getAttribute('role') === 'presentation'`. -/
def missingAltCondition (img : Img) : Bool :=
  jsNotStr img.alt && jsStrictEqBoolStr (jsNotAttr img.role) "presentation"

/-- Value of `audit.missingAltText` after the loop over all `<img>` elements. -/
def missingAltTextCount (imgs : List Img) : Nat :=
  (imgs.filter missingAltCondition).length

/-- An entry of `audit.issues`. -/
structure Issue where
  itype : String
  severity : String
deriving DecidableEq

/-- The issues contributed by the missing-alt-text check (source lines
4047–4053): one error issue when the count is positive, none otherwise. -/
def missingAltIssues (imgs : List Img) : List Issue :=
  if missingAltTextCount imgs > 0 then [⟨"images", "error"⟩] else []

/-! ## Accessibility audit: summary score (source lines 4136–4147) -/

/-- JS `Math.max` on integers. -/
def jsMaxInt (a b : ℤ) : ℤ := if a < b then b else a

/-- Shape of `audit.summary` (source lines 4141–4147). -/
structure Summary where
  totalIssues : Nat
  errors : Nat
  warnings : Nat
  score : ℤ
  passesMinimumAA : Bool
deriving DecidableEq

/-- Number of issues with severity `'error'`
(`audit.issues.filter(i => i.severity === 'error').length`). -/
def countErrors (issues : List Issue) : Nat :=
  (issues.filter (fun i => i.severity == "error")).length

/-- Number of issues with severity `'warning'`. -/
def countWarnings (issues : List Issue) : Nat :=
  (issues.filter (fun i => i.severity == "warning")).length

/-- The summary computation (source lines 4136–4147):
`score: Math.max(0, 100 - (errors * 15) - (warnings * 5))`,
`passesMinimumAA: errors === 0`. -/
def auditSummary (issues : List Issue) : Summary :=
  let errors := countErrors issues
  let warnings := countWarnings issues
  { totalIssues := issues.length
    errors := errors
    warnings := warnings
    score := jsMaxInt 0 (100 - (errors : ℤ) * 15 - (warnings : ℤ) * 5)
    passesMinimumAA := errors == 0 }

/-! ## Color Analyzer: inclusion threshold (source lines 1663–1665, 1822–1823)

The source computes `totalElements = document.querySelectorAll("*").length`
— the number of ALL elements, hidden ones included — even though its own
comment says "Count total visible elements for threshold calculation".  The
visibility skip (`display:none` / `visibility:hidden` / `opacity:0`) applies
only to the per-element color walk, not to this count. -/

/-- An element as seen by the Color Analyzer's walk: the three computed style
properties its visibility skip reads. -/
structure El where
  display : String
  visibility : String
  opacity : String
deriving DecidableEq

/-- Embedding of `totalElements` (source lines 1664–1665): the length of
`document.querySelectorAll("*")`, with no visibility filtering. -/
def totalElements (els : List El) : Nat := els.length

/-- The visibility skip of the element walk (source lines 1682–1688): an
element is processed unless `display === "none"`, `visibility === "hidden"`,
or `opacity === "0"`. -/
def isVisibleEl (e : El) : Bool :=
  !(e.display == "none" || e.visibility == "hidden" || e.opacity == "0")

/-- The threshold as a function of the element count:
`Math.max(3, Math.floor(totalElements * 0.01))` (exact arithmetic:
`⌊n/100⌋`). -/
def thresholdOfCount (n : Nat) : Nat := max 3 (n / 100)

/-- Embedding of `threshold` (source line 1823), computed from the unfiltered element
count. -/
def inclusionThreshold (els : List El) : Nat := thresholdOfCount (totalElements els)

/-- The threshold filter of the palette (source line 1878):
`if (data.count < threshold) return false`. -/
def keepByThreshold (count threshold : Nat) : Bool := !(count < threshold)

/-! ## Color Analyzer: `deltaE` and perceptual deduplication
(source lines 1847–1921) -/

/-- A palette entry as built in source lines 1887–1894. -/
structure PaletteEntry where
  color : String
  normalized : String
  count : Nat
  confidence : String
deriving DecidableEq

/-- A parsed RGB triple. -/
structure Rgb where
  r : Nat
  g : Nat
  b : Nat
deriving DecidableEq

/-- ASCII hex digit, case-insensitive (the character class `[a-f\d]` under the
`/i` flag). -/
def isHexDigitCI (c : Char) : Bool :=
  c.isDigit || ('a' ≤ c && c ≤ 'f') || ('A' ≤ c && c ≤ 'F')

/-- Value of one case-insensitive hex digit, as JS `parseInt(_, 16)`. -/
def hexVal (c : Char) : Nat :=
  if c.isDigit then c.toNat - 48
  else if 'a' ≤ c then c.toNat - 87
  else c.toNat - 55

/-- Embedding of `hexToRgb` inside `deltaE` (source lines 1850–1860): requires the string
to start with `'#'`, then match `/^#?([a-f\d]{2})([a-f\d]{2})([a-f\d]{2})$/i`
— together: exactly `'#'` followed by six case-insensitive hex digits. -/
def hexToRgb (s : String) : Option Rgb :=
  match s.data with
  | '#' :: c1 :: c2 :: c3 :: c4 :: c5 :: c6 :: [] =>
    if isHexDigitCI c1 && isHexDigitCI c2 && isHexDigitCI c3 &&
        isHexDigitCI c4 && isHexDigitCI c5 && isHexDigitCI c6 then
      some ⟨hexVal c1 * 16 + hexVal c2, hexVal c3 * 16 + hexVal c4,
        hexVal c5 * 16 + hexVal c6⟩
    else none
  | _ => none

/-- Squared Euclidean RGB distance, the radicand of `deltaE` (source lines
1868–1872). -/
def rgbSqDist (c1 c2 : Rgb) : ℤ :=
  ((c1.r : ℤ) - c2.r) ^ 2 + ((c1.g : ℤ) - c2.g) ^ 2 + ((c1.b : ℤ) - c2.b) ^ 2

/-- The comparison `deltaE(s1, s2) < t` for a positive threshold `t` (the
source only ever compares against 15).  When both sides parse, the source
compares `Math.sqrt(d) < t`, which for `d ≥ 0`, `t > 0` is equivalent to
`d < t²`; when either side fails to parse, `deltaE` returns the sentinel
`999`, and the comparison is `999 < t` (source line 1865: "Very different if
can't parse"). -/
def deltaELt (s1 s2 : String) (t : ℤ) : Bool :=
  match hexToRgb s1, hexToRgb s2 with
  | some c1, some c2 => rgbSqDist c1 c2 < t ^ 2
  | _, _ => (999 : ℤ) < t

/-- Embedding of `similar.sort((a, b) => b.count - a.count)[0]` (source line 1919): JS
`Array.prototype.sort` is stable, so the first element of the sorted array is
the earliest element of maximal count.  A left fold keeping the current
element only on a strictly larger count computes exactly that. -/
def bestOf (c : PaletteEntry) (similar : List PaletteEntry) : PaletteEntry :=
  similar.foldl (fun acc p => if p.count > acc.count then p else acc) c

/-- The perceptual-deduplication loop (source lines 1899–1921), with explicit
fuel for structural recursion (the fuel is always at least the list length,
and each step strictly shrinks the list).  Visiting the first unmerged entry
`c`, it gathers every later unmerged entry within distance 15 of `c`, keeps
the highest-count representative, and continues on the untouched rest. -/
def perceptualDedupGo : Nat → List PaletteEntry → List PaletteEntry
  | 0, _ => []
  | _, [] => []
  | fuel + 1, c :: rest =>
    let similar := rest.filter fun p => deltaELt c.normalized p.normalized 15
    let remaining := rest.filter fun p => !deltaELt c.normalized p.normalized 15
    bestOf c similar :: perceptualDedupGo fuel remaining

/-- Embedding of `perceptuallyDeduped` (source lines 1899–1921). -/
def perceptualDedup (palette : List PaletteEntry) : List PaletteEntry :=
  perceptualDedupGo palette.length palette

/-- The perceptual-duplicate test applied to a CSS-variable color against the
deduplicated palette (source lines 1938–1945): the variable is flagged as a
duplicate when some palette color is within distance 15. -/
def cssVarIsPerceptualDup (normalized : String) (deduped : List PaletteEntry) : Bool :=
  deduped.any fun pc => deltaELt normalized pc.normalized 15

/-! ## Spacing analyzer: grid-type inference (source lines 2262–2278) -/

/-- A spacing tally entry: a positive pixel value with its occurrence count
(one entry of the `spacings` map). -/
structure SpacingEntry where
  px : ℚ
  count : Nat
deriving DecidableEq

/-- JS `%` (`fmod`) for the nonnegative operands used here. -/
def jsModQ (a b : ℚ) : ℚ := a - b * ⌊a / b⌋

/-- Embedding of `Array.prototype.sort((a, b) => b[1] - a[1])`: stable sort by count
descending.  `List.mergeSort` is stable, and `b[1] - a[1] ≤ 0` iff
`a.count ≥ b.count`. -/
def sortByCountDesc (l : List SpacingEntry) : List SpacingEntry :=
  l.mergeSort fun a b => b.count ≤ a.count

/-- Embedding of `values` (source lines 2262–2271) reduced to its numeric content: the top
20 entries by count.  (The subsequent `.map`/`.sort` steps only re-lay-out
and re-order the entries; the grid-type check below reads each entry's pixel
value, `parseFloat(v.px)` recovering `numericValue` exactly, and `some` is
order-insensitive.) -/
def topSpacingValues (entries : List SpacingEntry) : List SpacingEntry :=
  (sortByCountDesc entries).take 20

/-- Embedding of `values.some(v => parseFloat(v.px) % 4 === 0)` (source line 2274). -/
def spacingIs4px (entries : List SpacingEntry) : Bool :=
  (topSpacingValues entries).any fun v => jsModQ v.px 4 == 0

/-- Embedding of `values.some(v => parseFloat(v.px) % 8 === 0)` (source line 2275). -/
def spacingIs8px (entries : List SpacingEntry) : Bool :=
  (topSpacingValues entries).any fun v => jsModQ v.px 8 == 0

/-- Embedding of `scaleType` (source line 2276): `is8px ? "8px" : is4px ? "4px" :
"custom"`. -/
def scaleType (entries : List SpacingEntry) : String :=
  if spacingIs8px entries then "8px"
  else if spacingIs4px entries then "4px"
  else "custom"

/-! ## Button candidate filter (`extractButtonStyles`, source lines
2515–2567) -/

/-- JS `parseFloat`, restricted to the decimal forms occurring in computed
style values: optional leading whitespace, optional sign, digits with an
optional fractional part, an optional exponent, and arbitrary trailing text;
`none` models `NaN`.  (`Infinity` literals cannot occur in the computed
lengths this is applied to.) -/
def jsParseFloat (s : String) : Option ℚ :=
  let cs := s.data.dropWhile Char.isWhitespace
  let (sign, cs1) : ℚ × List Char :=
    match cs with
    | '-' :: t => (-1, t)
    | '+' :: t => (1, t)
    | _ => (1, cs)
  let intPart := cs1.takeWhile Char.isDigit
  let cs2 := cs1.dropWhile Char.isDigit
  let (fracPart, cs3) : List Char × List Char :=
    match cs2 with
    | '.' :: t => (t.takeWhile Char.isDigit, t.dropWhile Char.isDigit)
    | _ => ([], cs2)
  if intPart.isEmpty && fracPart.isEmpty then none
  else
    let mantissa : ℚ :=
      (digitsToNat intPart : ℚ) + (digitsToNat fracPart : ℚ) / 10 ^ fracPart.length
    let expo : ℤ :=
      match cs3 with
      | 'e' :: '-' :: t =>
        let d := t.takeWhile Char.isDigit
        if d.isEmpty then 0 else -(digitsToNat d : ℤ)
      | 'e' :: '+' :: t =>
        let d := t.takeWhile Char.isDigit
        if d.isEmpty then 0 else (digitsToNat d : ℤ)
      | 'e' :: t =>
        let d := t.takeWhile Char.isDigit
        if d.isEmpty then 0 else (digitsToNat d : ℤ)
      | 'E' :: '-' :: t =>
        let d := t.takeWhile Char.isDigit
        if d.isEmpty then 0 else -(digitsToNat d : ℤ)
      | 'E' :: '+' :: t =>
        let d := t.takeWhile Char.isDigit
        if d.isEmpty then 0 else (digitsToNat d : ℤ)
      | 'E' :: t =>
        let d := t.takeWhile Char.isDigit
        if d.isEmpty then 0 else (digitsToNat d : ℤ)
      | _ => 0
    some (sign * mantissa * (10 : ℚ) ^ expo)

/-- A button candidate, carrying exactly the data the filter reads: bounding
box, the visibility-related computed styles, `innerText` (already the
`?.trim() || ''` result is recomputed below from the raw text), the two
icon-glyph query counts, and the background/border styles (first child's
background color when present). -/
structure ButtonCandidate where
  width : ℚ
  height : ℚ
  display : String
  visibility : String
  opacity : String
  transform : String
  innerText : String
  materialIconsCount : Nat
  materialSymbolsCount : Nat
  backgroundColor : String
  border : String
  borderWidth : String
  childBackgroundColors : List String
deriving DecidableEq

/-- JS `String.prototype.trim` on a character list (ASCII whitespace). -/
def jsTrimL (l : List Char) : List Char :=
  ((l.dropWhile Char.isWhitespace).reverse.dropWhile Char.isWhitespace).reverse

/-- JS `String.prototype.split(' ')` on a character list: split on every
single space character; `"".split(' ')` is `[""]` and consecutive spaces
yield empty fields. -/
def jsSplitSpace : List Char → List (List Char)
  | [] => [[]]
  | ' ' :: t => [] :: jsSplitSpace t
  | c :: t =>
    match jsSplitSpace t with
    | h :: r => (c :: h) :: r
    | [] => [[c]]

/-- Embedding of `buttonText` (source line 2537): `btn.innerText?.trim() || ''`. -/
def buttonTextOf (b : ButtonCandidate) : List Char := jsTrimL b.innerText.data

/-- Embedding of `textNoSpaces` (source line 2538): `buttonText.split(' ').join('')`. -/
def textNoSpacesOf (b : ButtonCandidate) : List Char :=
  (jsSplitSpace (buttonTextOf b)).flatten

/-- The space-separated lowercase tokens of the button text
(`buttonText.toLowerCase().split(' ')`, source lines 2543–2544). -/
def buttonTokensOf (b : ButtonCandidate) : List (List Char) :=
  jsSplitSpace (jsToLowerL (buttonTextOf b))

/-- Embedding of `hasBackground` (source line 2555). -/
def hasBackground (b : ButtonCandidate) : Bool :=
  b.backgroundColor != "" && b.backgroundColor != "rgba(0, 0, 0, 0)" &&
    b.backgroundColor != "transparent"

/-- Embedding of `hasBorder` (source line 2554): `borderWidth && parseFloat(borderWidth) >
0 && border !== 'none'`. -/
def hasBorder (b : ButtonCandidate) : Bool :=
  b.borderWidth != "" &&
    (match jsParseFloat b.borderWidth with
     | some v => decide (v > 0)
     | none => false) &&
    b.border != "none"

/-- Embedding of `childHasBackground` (source lines 2558–2563): only consulted when the
candidate itself has no background and has at least one child; reads the
first child's background color. -/
def childHasBackground (b : ButtonCandidate) : Bool :=
  if !hasBackground b && !b.childBackgroundColors.isEmpty then
    match b.childBackgroundColors.head? with
    | some childBg =>
      childBg != "" && childBg != "rgba(0, 0, 0, 0)" && childBg != "transparent"
    | none => false
  else false

/-- The candidate filter of `extractButtonStyles` (source lines 2515–2567):
`true` iff the candidate survives every skip condition and reaches the style
extraction that follows. -/
def buttonRetained (b : ButtonCandidate) : Bool :=
  !(b.width == 0 || b.height == 0 || b.display == "none" ||
      b.visibility == "hidden") &&
  !(b.opacity == "0") &&
  !(b.transform == "matrix(0, 0, 0, 0, 0, 0)") &&
  !(decide (b.width < 10) || decide (b.width > 600)) &&
  !(decide (b.height < 25) || decide (b.height > 200)) &&
  !(decide (b.height / b.width > 1.2)) &&
  !(decide (b.width / b.height > 8)) &&
  !((textNoSpacesOf b).length > 0 && (textNoSpacesOf b).length < 2) &&
  !((textNoSpacesOf b).length > 32) &&
  !((buttonTextOf b).contains '\n' || (buttonTextOf b).contains '\t') &&
  !(jsToLowerL (buttonTextOf b) == ['a', 'd']) &&
  !((buttonTokensOf b).contains ['s', 'k', 'i', 'p']) &&
  !((buttonTokensOf b).contains ['j', 'u', 'm', 'p']) &&
  !(b.materialIconsCount > 0) &&
  !(b.materialSymbolsCount > 0) &&
  (hasBackground b || hasBorder b || childHasBackground b)

/-! ## Accessibility audit: contrast computation (source lines 3941–4025)

The luminance computation applies a real `Math.pow(_, 2.4)`; it is modelled
over `ℝ` with `Real.rpow` (exact real semantics for the source's
floating-point arithmetic). -/

/-- Embedding of `parseRgb` (source lines 3958–3973): the rgb/rgba regex first, then the
unanchored-at-the-end hex pattern `/^#([0-9a-f]{2})([0-9a-f]{2})([0-9a-f]{2})/i`. -/
def parseRgb (color : String) : Option Rgb :=
  match findRgb color.data with
  | some (r, g, b) => some ⟨r, g, b⟩
  | none =>
    match color.data with
    | '#' :: c1 :: c2 :: c3 :: c4 :: c5 :: c6 :: _ =>
      if isHexDigitCI c1 && isHexDigitCI c2 && isHexDigitCI c3 &&
          isHexDigitCI c4 && isHexDigitCI c5 && isHexDigitCI c6 then
        some ⟨hexVal c1 * 16 + hexVal c2, hexVal c3 * 16 + hexVal c4,
          hexVal c5 * 16 + hexVal c6⟩
      else none
    | _ => none

noncomputable section

/-- The per-channel sRGB linearization inside `getLuminance` (source lines
3943–3946): `c/255`, then `c ≤ 0.03928 ? c/12.92 : ((c+0.055)/1.055)^2.4`. -/
def linearizeChannel (n : Nat) : ℝ :=
  if ((n : ℚ) / 255 ≤ 0.03928) then (((n : ℚ) / 255 : ℚ) : ℝ) / 12.92
  else ((((n : ℚ) / 255 + 0.055) / 1.055 : ℚ) : ℝ) ^ (2.4 : ℝ)

/-- Embedding of `getLuminance` (source lines 3942–3948). -/
def getLuminance (c : Rgb) : ℝ :=
  0.2126 * linearizeChannel c.r + 0.7152 * linearizeChannel c.g +
    0.0722 * linearizeChannel c.b

/-- Embedding of `getContrastRatio` (source lines 3951–3955). -/
def getContrastRatio (l1 l2 : ℝ) : ℝ :=
  (max l1 l2 + 0.05) / (min l1 l2 + 0.05)

/-- The contrast ratio of a foreground/background pair as the audit computes
it (source lines 4004–4006). -/
def contrastRatioOf (fg bg : Rgb) : ℝ :=
  getContrastRatio (getLuminance fg) (getLuminance bg)

end

/-- Embedding of `isLargeText` (source line 4009):
`fontSize >= 18 || (fontSize >= 14 && fontWeight >= 700)`. -/
def isLargeText (fontSize fontWeight : ℚ) : Bool :=
  decide (fontSize ≥ 18) || (decide (fontSize ≥ 14) && decide (fontWeight ≥ 700))

/-- Embedding of `aaRequired` (source line 4010): `isLargeText ? 3 : 4.5`. -/
def aaRequired (large : Bool) : ℝ := if large then 3 else 4.5

/-- Embedding of `aaaRequired` (source line 4011): `isLargeText ? 4.5 : 7`. -/
def aaaRequired (large : Bool) : ℝ := if large then 4.5 else 7

/-! ## Concrete inputs used by the theorems below -/

/-- An image with no alt text and no `role` attribute. -/
def imgNoAlt : Img := ⟨"", none⟩

/-- A page with 400 elements of which 300 are hidden (`display:none`). -/
def hiddenHeavyPage : List El :=
  List.replicate 100 ⟨"block", "visible", "1"⟩ ++
    List.replicate 300 ⟨"none", "visible", "1"⟩

/-- A 300×40px candidate with a green background and text `"Sign Up"`. -/
def exSignUp : ButtonCandidate :=
  ⟨300, 40, "block", "visible", "1", "none", "Sign Up", 0, 0,
    "rgb(0, 128, 0)", "0px none rgb(0, 0, 0)", "0px", []⟩

/-- A 700×40px candidate, too wide for the filter. -/
def exWide : ButtonCandidate :=
  ⟨700, 40, "block", "visible", "1", "none", "Click", 0, 0,
    "rgb(0, 128, 0)", "0px none rgb(0, 0, 0)", "0px", []⟩

/-- A candidate whose text is `"Skip to content"`. -/
def exSkip : ButtonCandidate :=
  ⟨200, 40, "block", "visible", "1", "none", "Skip to content", 0, 0,
    "rgb(0, 128, 0)", "0px none rgb(0, 0, 0)", "0px", []⟩

/-- A 40×40px icon-only native button: empty text, transparent background,
2px border. -/
def exIcon : ButtonCandidate :=
  ⟨40, 40, "inline-block", "visible", "1", "none", "", 0, 0,
    "rgba(0, 0, 0, 0)", "2px solid rgb(0, 0, 238)", "2px", []⟩

/-- Spacing tallies whose most frequent values (12 and 8) are all multiples
of 4 but not all multiples of 8. -/
def mixedSpacing : List SpacingEntry := [⟨12, 10⟩, ⟨8, 5⟩]

/-- Spacing tallies with no multiple of 4 at all. -/
def oddSpacing : List SpacingEntry := [⟨5, 3⟩]

/-! # Theorems -/

/-- Claim C1. The claim says the audit's missing-alt-text count equals the
number of `img` elements lacking alt text (presentation-role excluded) and is
at least 1 — with an error issue recorded — whenever such an image exists.
The code cannot do this: its condition
`!img.alt && !img.getAttribute('role') === 'presentation'` compares the
boolean `!img.getAttribute('role')` to a string with `===`, which is always
false, so `missingAltText` is `0` on every page and the error issue is never
pushed — in particular on a page with a single alt-less, role-less image. -/
theorem missingAltText_always_zero :
    missingAltTextCount [imgNoAlt] = 0 ∧ missingAltIssues [imgNoAlt] = [] ∧
      ∀ imgs : List Img, missingAltTextCount imgs = 0 ∧ missingAltIssues imgs = [] := by
  have hcond : ∀ i : Img, missingAltCondition i = false := by
    intro i
    simp [missingAltCondition, jsStrictEqBoolStr]
  have hcount : ∀ imgs : List Img, missingAltTextCount imgs = 0 := by
    intro imgs
    have : imgs.filter missingAltCondition = [] :=
      List.filter_eq_nil_iff.mpr fun a _ => by simp [hcond a]
    simp [missingAltTextCount, this]
  refine ⟨hcount [imgNoAlt], ?_, fun imgs => ⟨hcount imgs, ?_⟩⟩ <;>
    simp [missingAltIssues, hcount]

set_option maxRecDepth 4096 in
/-- Claim C2. The claim says the palette inclusion threshold is
`max(3, 1% of the total VISIBLE element count)`.  The code computes
`totalElements` as `document.querySelectorAll("*").length` — all elements,
hidden ones included — even though its own comment says "Count total visible
elements".  On a page with 100 visible and 300 hidden elements the code's
threshold is 4 while the visible-count threshold is 3, so a color occurring
3 times is dropped where the claim says it is kept.  The threshold formula
itself and its monotonicity in the element count do hold. -/
theorem inclusionThreshold_counts_hidden_elements :
    inclusionThreshold hiddenHeavyPage = 4 ∧
    (hiddenHeavyPage.filter isVisibleEl).length = 100 ∧
    thresholdOfCount (hiddenHeavyPage.filter isVisibleEl).length = 3 ∧
    keepByThreshold 3 (inclusionThreshold hiddenHeavyPage) = false ∧
    keepByThreshold 3 (thresholdOfCount (hiddenHeavyPage.filter isVisibleEl).length) = true ∧
    ∀ n : ℕ, thresholdOfCount n ≤ thresholdOfCount (n + 1) := by
  refine ⟨by decide, by decide, by decide, by decide, by decide, fun n => ?_⟩
  have : n / 100 ≤ (n + 1) / 100 := Nat.div_le_div_right (Nat.le_succ n)
  exact max_le_max le_rfl this

/-- Claim C5. For every audit run, `summary.score` equals
`max(0, 100 - 15*errorCount - 5*warningCount)` and `passesMinimumAA` holds
exactly when there are no error-severity issues; the error and warning counts
are the numbers of issues with the respective severities. -/
theorem auditSummary_score_formula (issues : List Issue) :
    (auditSummary issues).score =
      max 0 (100 - 15 * (issues.countP (fun i => i.severity == "error") : ℤ) -
        5 * (issues.countP (fun i => i.severity == "warning") : ℤ)) ∧
    ((auditSummary issues).passesMinimumAA = true ↔
      issues.countP (fun i => i.severity == "error") = 0) := by
  have he : countErrors issues = issues.countP (fun i => i.severity == "error") := by
    simp [countErrors, List.countP_eq_length_filter]
  have hw : countWarnings issues = issues.countP (fun i => i.severity == "warning") := by
    simp [countWarnings, List.countP_eq_length_filter]
  constructor
  · show jsMaxInt 0 _ = _
    rw [he, hw, jsMaxInt, max_def]
    split_ifs <;> omega
  · simp [auditSummary, he]

/-- Witness for `auditSummary_score_formula` at a concrete issue list
(one error, one warning): score 80, not passing minimum AA. -/
theorem auditSummary_score_formula_witness :
    (auditSummary [⟨"contrast", "error"⟩, ⟨"forms", "warning"⟩]).score =
      max 0 (100 - 15 * (([⟨"contrast", "error"⟩, ⟨"forms", "warning"⟩] :
        List Issue).countP (fun i => i.severity == "error") : ℤ) -
        5 * (([⟨"contrast", "error"⟩, ⟨"forms", "warning"⟩] :
        List Issue).countP (fun i => i.severity == "warning") : ℤ)) :=
  (auditSummary_score_formula [⟨"contrast", "error"⟩, ⟨"forms", "warning"⟩]).1

/-- Claim C9, counterexample. The claim says the grid-type inference reports
an "8px" scale exactly when the most frequent spacing values are multiples of
8, and "4px" when they are multiples of 4 but not 8.  On tallies whose most
frequent values are 12 (count 10) and 8 (count 5) — all multiples of 4, not
all multiples of 8 — the code still reports "8px", because it uses
`values.some(...)`: one single multiple of 8 suffices. -/
theorem scaleType_8px_from_one_multiple :
    scaleType mixedSpacing = "8px" ∧
    ((topSpacingValues mixedSpacing).all fun v => jsModQ v.px 8 == 0) = false ∧
    ((topSpacingValues mixedSpacing).all fun v => jsModQ v.px 4 == 0) = true := by
  refine ⟨?_, ?_, ?_⟩ <;> with_unfolding_all decide

/-- Claim C9, amended. The grid-type inference reports "8px" exactly when AT
LEAST ONE of the top-20 most frequent spacing values is a multiple of 8,
"4px" when at least one is a multiple of 4 but none is a multiple of 8 (8
preferred over 4), and "custom" otherwise; in particular, a value set with no
multiple of 8 among its most frequent values is never classified as an 8px
scale. -/
theorem scaleType_characterization (entries : List SpacingEntry) :
    decide (scaleType entries = "8px") = spacingIs8px entries ∧
    decide (scaleType entries = "4px") =
      (!spacingIs8px entries && spacingIs4px entries) ∧
    decide (scaleType entries = "custom") =
      (!spacingIs8px entries && !spacingIs4px entries) ∧
    (spacingIs8px entries = false → scaleType entries ≠ "8px") := by
  unfold scaleType
  rcases h8 : spacingIs8px entries <;> rcases h4 : spacingIs4px entries <;>
    simp

/-- Witness for `scaleType_characterization`: tallies `[5 (count 3)]` contain
no multiple of 8, and the inference indeed does not classify them as 8px. -/
theorem scaleType_characterization_witness :
    spacingIs8px oddSpacing = false ∧ scaleType oddSpacing ≠ "8px" :=
  ⟨by with_unfolding_all decide,
    (scaleType_characterization oddSpacing).2.2.2 (by with_unfolding_all decide)⟩

/-- Claim C8, counterexample. The claim says the hover/focus merge step uses
the same color-normalization routine as the Color Analyzer for every color
string, hsl()/hsla() included.  It does not: the merge step (source lines
1161–1168) only converts the rgb/rgba pattern and lowercases everything else,
while `normalizeColor` also converts hsl/hsla.  On `"hsl(120, 50%, 50%)"`
the merge step yields the string unchanged, `normalizeColor` yields
`"#40bf40"`. -/
theorem brandingNormalize_differs_on_hsl :
    brandingNormalize "hsl(120, 50%, 50%)" = "hsl(120, 50%, 50%)" ∧
    normalizeColor "hsl(120, 50%, 50%)" = "#40bf40" ∧
    brandingNormalize "hsl(120, 50%, 50%)" ≠ normalizeColor "hsl(120, 50%, 50%)" := by
  refine ⟨?_, ?_, ?_⟩ <;> with_unfolding_all decide

/-- Claim C8, amended. On every color string in which the hsl/hsla pattern
does not occur — rgb()/rgba() values, hex values, named colors — the
hover/focus merge step's inline normalization agrees with the Color
Analyzer's `normalizeColor`; the two differ exactly on the hsl branch. -/
theorem brandingNormalize_eq_normalizeColor_no_hsl (s : String)
    (h : findHsl s.data = none) : brandingNormalize s = normalizeColor s := by
  unfold brandingNormalize normalizeColor brandingNormalizeL normalizeColorL
  rcases hr : findRgb s.data with _ | ⟨r, g, b⟩ <;> simp [hr, h]

/-- Witness for `brandingNormalize_eq_normalizeColor_no_hsl` at
`"rgb(10, 20, 30)"`. -/
theorem brandingNormalize_eq_normalizeColor_no_hsl_witness :
    findHsl ("rgb(10, 20, 30)" : String).data = none ∧
    brandingNormalize "rgb(10, 20, 30)" = normalizeColor "rgb(10, 20, 30)" :=
  ⟨by decide, brandingNormalize_eq_normalizeColor_no_hsl _ (by decide)⟩

/-- Claim C6. The button candidate filter retains the 300×40px green "Sign Up"
element and the 40×40px bordered icon-only button with empty text and
transparent background; it rejects every candidate wider than 600px, and
every candidate whose lowercased space-split text contains the token
`"skip"`. -/
theorem buttonFilter_scenarios :
    buttonRetained exSignUp = true ∧
    (∀ b : ButtonCandidate, b.width > 600 → buttonRetained b = false) ∧
    (∀ b : ButtonCandidate,
      (buttonTokensOf b).contains ['s', 'k', 'i', 'p'] = true →
        buttonRetained b = false) ∧
    buttonRetained exIcon = true := by
  refine ⟨by with_unfolding_all decide, ?_, ?_, by with_unfolding_all decide⟩
  · intro b hw
    have h : decide (b.width > 600) = true := decide_eq_true hw
    simp [buttonRetained, h]
  · intro b hskip
    have hmem : ['s', 'k', 'i', 'p'] ∈ buttonTokensOf b := by
      simpa using hskip
    simp [buttonRetained, hmem]

/-- Witness for `buttonFilter_scenarios`: the 700×40px candidate and the
"Skip to content" candidate are both rejected. -/
theorem buttonFilter_scenarios_witness :
    buttonRetained exWide = false ∧ buttonRetained exSkip = false :=
  ⟨buttonFilter_scenarios.2.1 exWide (by with_unfolding_all decide),
    buttonFilter_scenarios.2.2.1 exSkip (by with_unfolding_all decide)⟩

/-! ## Lemmas about the perceptual-deduplication loop -/

/-- The deduplication loop never lengthens the list. -/
lemma perceptualDedupGo_length_le :
    ∀ (fuel : Nat) (l : List PaletteEntry),
      (perceptualDedupGo fuel l).length ≤ l.length := by
  intro fuel
  induction fuel with
  | zero => intro l; simp [perceptualDedupGo]
  | succ n ih =>
    intro l
    cases l with
    | nil => simp [perceptualDedupGo]
    | cons c rest =>
      have h1 := ih (rest.filter fun p => !deltaELt c.normalized p.normalized 15)
      have h2 := List.length_filter_le
        (fun p => !deltaELt c.normalized p.normalized 15) rest
      simp only [perceptualDedupGo, List.length_cons]
      omega

/-- Function `bestOf` returns the seed when no later cluster member has a strictly
larger count. -/
lemma bestOf_eq_seed :
    ∀ (l : List PaletteEntry) (c : PaletteEntry),
      (∀ p ∈ l, p.count ≤ c.count) → bestOf c l = c := by
  intro l
  induction l with
  | nil => intro c _; rfl
  | cons p t ih =>
    intro c h
    have hp : ¬p.count > c.count := by
      have := h p (List.mem_cons_self p t)
      omega
    have : bestOf c (p :: t) = bestOf c t := by
      simp [bestOf, hp]
    rw [this]
    exact ih c fun q hq => h q (List.mem_cons_of_mem p hq)

/-- An entry whose normalized color does not parse is never within the merge
threshold of anything (first-argument version). -/
lemma deltaELt_of_left_unparseable {s : String} (h : hexToRgb s = none)
    (t : String) : deltaELt s t 15 = false := by
  unfold deltaELt
  rcases ht : hexToRgb t <;> simp [h, ht]

/-- An entry whose normalized color does not parse is never within the merge
threshold of anything (second-argument version). -/
lemma deltaELt_of_right_unparseable {s : String} (h : hexToRgb s = none)
    (t : String) : deltaELt t s 15 = false := by
  unfold deltaELt
  rcases ht : hexToRgb t <;> simp [h, ht]

/-- An entry with an unparseable normalized color always survives the
deduplication loop. -/
lemma perceptualDedupGo_mem_of_unparseable :
    ∀ (fuel : Nat) (l : List PaletteEntry) (e : PaletteEntry),
      l.length ≤ fuel → e ∈ l → hexToRgb e.normalized = none →
        e ∈ perceptualDedupGo fuel l := by
  intro fuel
  induction fuel with
  | zero =>
    intro l e hlen hmem _
    rw [List.length_eq_zero.mp (Nat.le_zero.mp hlen)] at hmem
    simp at hmem
  | succ n ih =>
    intro l e hlen hmem hnone
    cases l with
    | nil => simp at hmem
    | cons c rest =>
      rcases List.mem_cons.mp hmem with rfl | hrest
      · have hsim : rest.filter (fun p => deltaELt e.normalized p.normalized 15) = [] :=
          List.filter_eq_nil_iff.mpr fun p _ => by
            simp [deltaELt_of_left_unparseable hnone]
        simp only [perceptualDedupGo, hsim]
        rw [bestOf_eq_seed [] e (by simp)]
        exact List.mem_cons_self _ _
      · have hkeep : e ∈ rest.filter fun p => !deltaELt c.normalized p.normalized 15 :=
          List.mem_filter.mpr ⟨hrest, by
            simp [deltaELt_of_right_unparseable hnone]⟩
        have hlen' : (rest.filter fun p => !deltaELt c.normalized p.normalized 15).length ≤ n := by
          have := List.length_filter_le
            (fun p => !deltaELt c.normalized p.normalized 15) rest
          simp only [List.length_cons] at hlen
          omega
        exact List.mem_cons_of_mem _ (ih _ e hlen' hkeep hnone)

/-- Claim C3. On every palette sorted by occurrence count descending, the
perceptual deduplication step returns a list no longer than its input, and
the first (globally most-frequent) entry of the input always appears in the
output. -/
theorem perceptualDedup_shrinks_and_keeps_top (p : List PaletteEntry)
    (hsorted : List.Pairwise (fun a b => b.count ≤ a.count) p) :
    (perceptualDedup p).length ≤ p.length ∧
    ∀ c, p.head? = some c → c ∈ perceptualDedup p := by
  refine ⟨perceptualDedupGo_length_le _ _, ?_⟩
  intro c hc
  cases p with
  | nil => simp at hc
  | cons c0 rest =>
    have hc0 : c0 = c := by simpa using hc
    subst hc0
    have hle : ∀ q ∈ rest, q.count ≤ c0.count :=
      fun q hq => (List.pairwise_cons.mp hsorted).1 q hq
    have hbest :
        bestOf c0 (rest.filter fun p => deltaELt c0.normalized p.normalized 15) = c0 :=
      bestOf_eq_seed _ c0 fun q hq => hle q (List.mem_filter.mp hq).1
    simp only [perceptualDedup, List.length_cons, perceptualDedupGo, hbest]
    exact List.mem_cons_self _ _

/-- Witness for `perceptualDedup_shrinks_and_keeps_top` on a concrete
3-entry palette sorted by count: the output is no longer, and the top entry
`#ff0000` (count 5) is kept. -/
theorem perceptualDedup_shrinks_and_keeps_top_witness :
    (perceptualDedup [⟨"rgb(255, 0, 0)", "#ff0000", 5, "high"⟩,
      ⟨"rgb(250, 0, 0)", "#fa0000", 3, "low"⟩,
      ⟨"rgb(0, 0, 255)", "#0000ff", 2, "low"⟩]).length ≤ 3 ∧
    (⟨"rgb(255, 0, 0)", "#ff0000", 5, "high"⟩ : PaletteEntry) ∈
      perceptualDedup [⟨"rgb(255, 0, 0)", "#ff0000", 5, "high"⟩,
        ⟨"rgb(250, 0, 0)", "#fa0000", 3, "low"⟩,
        ⟨"rgb(0, 0, 255)", "#0000ff", 2, "low"⟩] := by
  have h := perceptualDedup_shrinks_and_keeps_top
    [⟨"rgb(255, 0, 0)", "#ff0000", 5, "high"⟩,
      ⟨"rgb(250, 0, 0)", "#fa0000", 3, "low"⟩,
      ⟨"rgb(0, 0, 255)", "#0000ff", 2, "low"⟩] (by decide)
  exact ⟨h.1, h.2 _ rfl⟩

/-- Claim C10. A palette or CSS-variable entry whose normalized color string is
not a parseable `#rrggbb` hex is never merged with any other entry: `deltaE`
treats it as distance 999, above the merge threshold 15, so the
within-threshold test is false in both argument orders, the CSS-variable
perceptual-duplicate check never flags it, and such a palette entry always
survives deduplication as its own result. -/
theorem unparseable_never_merged (s : String) (h : hexToRgb s = none) :
    (∀ t : String, deltaELt s t 15 = false ∧ deltaELt t s 15 = false) ∧
    (∀ deduped : List PaletteEntry, cssVarIsPerceptualDup s deduped = false) ∧
    ∀ (p : List PaletteEntry) (e : PaletteEntry), e ∈ p → e.normalized = s →
      e ∈ perceptualDedup p := by
  refine ⟨fun t => ⟨deltaELt_of_left_unparseable h t,
    deltaELt_of_right_unparseable h t⟩, fun deduped => ?_, fun p e hmem hnorm => ?_⟩
  · simp only [cssVarIsPerceptualDup, List.any_eq_false]
    intro pc _
    simp [deltaELt_of_left_unparseable h]
  · exact perceptualDedupGo_mem_of_unparseable _ _ _ le_rfl hmem (hnorm ▸ h)

/-- Witness for `unparseable_never_merged`: `"red"` (a named color) does not
parse, is at distance 999 (not below 15) from `"#ff0000"`, and the entry
keyed `"red"` survives deduplication next to a parseable red. -/
theorem unparseable_never_merged_witness :
    hexToRgb "red" = none ∧
    deltaELt "red" "#ff0000" 15 = false ∧
    cssVarIsPerceptualDup "red" [⟨"#ff0000", "#ff0000", 3, "low"⟩] = false ∧
    (⟨"red", "red", 4, "low"⟩ : PaletteEntry) ∈
      perceptualDedup [⟨"red", "red", 4, "low"⟩, ⟨"#ff0000", "#ff0000", 3, "low"⟩] := by
  have h := unparseable_never_merged "red" (by decide)
  exact ⟨by decide, (h.1 "#ff0000").1, h.2.1 _,
    h.2.2 _ _ (List.mem_cons_self _ _) rfl⟩

/-! ## Lemmas for the contrast scenarios -/

/-- Channel 0 linearizes to 0 (low branch). -/
lemma linearizeChannel_zero : linearizeChannel 0 = 0 := by
  rw [linearizeChannel, if_pos (by norm_num)]
  norm_num

/-- Channel 255 linearizes to 1 (`((1 + 0.055)/1.055)^2.4 = 1`). -/
lemma linearizeChannel_255 : linearizeChannel 255 = 1 := by
  rw [linearizeChannel, if_neg (by norm_num)]
  have h : ((((255 : ℕ) : ℚ) / 255 + 0.055) / 1.055 : ℚ) = 1 := by norm_num
  rw [h]
  norm_num [Real.one_rpow]

/-- Channel 150 linearizes to `(2187/3587)^2.4`. -/
lemma linearizeChannel_150 :
    linearizeChannel 150 = (2187 / 3587 : ℝ) ^ (2.4 : ℝ) := by
  rw [linearizeChannel, if_neg (by norm_num)]
  have h : ((((150 : ℕ) : ℚ) / 255 + 0.055) / 1.055 : ℚ) = 2187 / 3587 := by
    norm_num
  rw [h]
  norm_num

/-- Luminance of black is 0. -/
lemma getLuminance_black : getLuminance ⟨0, 0, 0⟩ = 0 := by
  simp [getLuminance, linearizeChannel_zero]

/-- Luminance of white is 1 (`0.2126 + 0.7152 + 0.0722 = 1`). -/
lemma getLuminance_white : getLuminance ⟨255, 255, 255⟩ = 1 := by
  simp only [getLuminance, linearizeChannel_255]
  norm_num

/-- Luminance of the gray `rgb(150,150,150)` is its common linearized
channel. -/
lemma getLuminance_gray :
    getLuminance ⟨150, 150, 150⟩ = (2187 / 3587 : ℝ) ^ (2.4 : ℝ) := by
  simp only [getLuminance, linearizeChannel_150]
  ring

/-- The gray channel's linearization lies strictly between 11/60 and 1. -/
lemma gray_luminance_bounds :
    (11 / 60 : ℝ) < (2187 / 3587 : ℝ) ^ (2.4 : ℝ) ∧
      (2187 / 3587 : ℝ) ^ (2.4 : ℝ) ≤ 1 := by
  have hy0 : (0 : ℝ) < 2187 / 3587 := by norm_num
  have hy1 : (2187 / 3587 : ℝ) ≤ 1 := by norm_num
  constructor
  · have hcube : (2187 / 3587 : ℝ) ^ (3 : ℝ) ≤ (2187 / 3587 : ℝ) ^ (2.4 : ℝ) :=
      Real.rpow_le_rpow_of_exponent_ge hy0 hy1 (by norm_num)
    have h3 : (2187 / 3587 : ℝ) ^ (3 : ℝ) = (2187 / 3587 : ℝ) ^ (3 : ℕ) := by
      rw [show ((3 : ℝ)) = ((3 : ℕ) : ℝ) by norm_num, Real.rpow_natCast]
    have hval : (11 / 60 : ℝ) < (2187 / 3587 : ℝ) ^ (3 : ℕ) := by
      norm_num
    calc (11 / 60 : ℝ) < (2187 / 3587 : ℝ) ^ (3 : ℕ) := hval
      _ = (2187 / 3587 : ℝ) ^ (3 : ℝ) := h3.symm
      _ ≤ _ := hcube
  · exact Real.rpow_le_one hy0.le hy1 (by norm_num)

/-- Claim C4. Black text on a white background yields contrast ratio exactly 21
and passes AAA at both the large-text (4.5) and normal-text (7) thresholds;
`rgb(150,150,150)` on white at font-size 14px and weight 400 is classified as
normal text and its ratio is below the 4.5 AA threshold. -/
theorem contrast_scenarios :
    parseRgb "rgb(0, 0, 0)" = some ⟨0, 0, 0⟩ ∧
    parseRgb "rgb(255, 255, 255)" = some ⟨255, 255, 255⟩ ∧
    parseRgb "rgb(150, 150, 150)" = some ⟨150, 150, 150⟩ ∧
    contrastRatioOf ⟨0, 0, 0⟩ ⟨255, 255, 255⟩ = 21 ∧
    contrastRatioOf ⟨0, 0, 0⟩ ⟨255, 255, 255⟩ ≥ aaaRequired true ∧
    contrastRatioOf ⟨0, 0, 0⟩ ⟨255, 255, 255⟩ ≥ aaaRequired false ∧
    isLargeText 14 400 = false ∧
    contrastRatioOf ⟨150, 150, 150⟩ ⟨255, 255, 255⟩ <
      aaRequired (isLargeText 14 400) := by
  have hlarge : isLargeText 14 400 = false := by
    with_unfolding_all decide
  have hbw : contrastRatioOf ⟨0, 0, 0⟩ ⟨255, 255, 255⟩ = 21 := by
    rw [contrastRatioOf, getLuminance_black, getLuminance_white,
      getContrastRatio, max_eq_right (by norm_num : (0:ℝ) ≤ 1),
      min_eq_left (by norm_num : (0:ℝ) ≤ 1)]
    norm_num
  refine ⟨by decide, by decide, by decide, hbw, ?_, ?_, hlarge, ?_⟩
  · rw [hbw, aaaRequired]; norm_num
  · rw [hbw, aaaRequired]; norm_num
  · obtain ⟨hlb, hub⟩ := gray_luminance_bounds
    rw [hlarge, contrastRatioOf, getLuminance_gray, getLuminance_white,
      getContrastRatio, max_eq_right hub, min_eq_left hub, aaRequired]
    rw [div_lt_iff₀ (by linarith)]
    simp only [Bool.false_eq_true, if_false]
    linarith

/-! ## Lemmas for color-normalization idempotence -/

/-- Characters that can appear in a hex output of `normalizeColor` after the
leading `'#'`: hex digits and the minus sign. -/
def isHexOutChar (c : Char) : Bool :=
  c.isDigit || ('a' ≤ c && c ≤ 'f') || c == '-'

/-- The function `Nat.digitChar` at a base-16 digit is a hex-output character. -/
lemma digitChar_hexOut : ∀ m : Nat, m < 16 → isHexOutChar (Nat.digitChar m) = true := by
  decide

/-- Every character emitted by `Nat.toDigitsCore 16` (over a hex-output
accumulator) is a hex-output character. -/
lemma toDigitsCore_hexOut :
    ∀ (fuel n : Nat) (acc : List Char),
      (∀ c ∈ acc, isHexOutChar c = true) →
      ∀ c ∈ Nat.toDigitsCore 16 fuel n acc, isHexOutChar c = true := by
  intro fuel
  induction fuel with
  | zero => intro n acc hacc; simpa [Nat.toDigitsCore] using hacc
  | succ f ih =>
    intro n acc hacc c hc
    have hd : isHexOutChar (Nat.digitChar (n % 16)) = true :=
      digitChar_hexOut _ (Nat.mod_lt _ (by omega))
    have hacc' : ∀ c ∈ Nat.digitChar (n % 16) :: acc, isHexOutChar c = true := by
      intro c hc
      rcases List.mem_cons.mp hc with rfl | h
      · exact hd
      · exact hacc _ h
    rw [Nat.toDigitsCore] at hc
    by_cases hz : n / 16 = 0
    · rw [if_pos hz] at hc
      exact hacc' _ hc
    · rw [if_neg hz] at hc
      exact ih _ _ hacc' _ hc

/-- Every character of `natToHexL n` is a hex-output character. -/
lemma natToHexL_hexOut (n : Nat) : ∀ c ∈ natToHexL n, isHexOutChar c = true := by
  intro c hc
  exact toDigitsCore_hexOut _ _ [] (by simp) _ hc

/-- Every character of `intToHexL z` is a hex-output character. -/
lemma intToHexL_hexOut (z : Int) : ∀ c ∈ intToHexL z, isHexOutChar c = true := by
  intro c hc
  unfold intToHexL at hc
  split at hc
  · rcases List.mem_cons.mp hc with rfl | h
    · decide
    · exact natToHexL_hexOut _ _ h
  · exact natToHexL_hexOut _ _ hc

/-- Padding via `padStart2` preserves the hex-output character property. -/
lemma padStart2_hexOut {l : List Char} (hl : ∀ c ∈ l, isHexOutChar c = true) :
    ∀ c ∈ padStart2 l, isHexOutChar c = true := by
  intro c hc
  unfold padStart2 at hc
  split at hc
  · rcases List.mem_append.mp hc with h | h
    · rw [(List.mem_replicate.mp h).2]; decide
    · exact hl _ h
  · exact hl _ hc

/-- Every character of an rgb hex channel is a hex-output character. -/
lemma rgbHexChannel_hexOut (n : Nat) :
    ∀ c ∈ rgbHexChannel n, isHexOutChar c = true :=
  padStart2_hexOut (natToHexL_hexOut n)

/-- Every character of an hsl hex channel is a hex-output character. -/
lemma hslToHexChannel_hexOut (n m : ℚ) :
    ∀ c ∈ hslToHexChannel n m, isHexOutChar c = true :=
  padStart2_hexOut (intToHexL_hexOut _)

/-- A hex-output character is not `'r'`, not `'h'`, and fixed by
`Char.toLower`. -/
lemma hexOut_props {c : Char} (h : isHexOutChar c = true) :
    c ≠ 'r' ∧ c ≠ 'h' ∧ c.toLower = c := by
  refine ⟨fun hr => absurd h (by subst hr; decide),
    fun hh => absurd h (by subst hh; decide), ?_⟩
  have hup : ¬(c.toNat ≥ 65 ∧ c.toNat ≤ 90) := by
    rcases (by simpa [isHexOutChar] using h :
        (c.isDigit = true ∨ 'a' ≤ c ∧ c ≤ 'f') ∨ c = '-') with (hd | hf) | hdash
    · have h1 : (48 : Nat) ≤ c.toNat ∧ c.toNat ≤ 57 := by
        simp [Char.isDigit, UInt32.le_def] at hd
        exact hd
      omega
    · rw [Char.le_def, Char.le_def] at hf
      have h1 : (97 : Nat) ≤ c.toNat := hf.1
      have h2 : c.toNat ≤ 102 := hf.2
      omega
    · subst hdash; decide
  show (if c.toNat ≥ 65 ∧ c.toNat ≤ 90 then Char.ofNat (c.toNat + 32) else c) = c
  rw [if_neg hup]

/-- The rgb pattern cannot match at a position not starting with `'r'`. -/
lemma matchRgbAt_none {c : Char} (t : List Char) (hc : c ≠ 'r') :
    matchRgbAt (c :: t) = none := by
  rw [matchRgbAt.eq_def]
  split <;> simp_all

/-- A string without `'r'` contains no rgb/rgba match. -/
lemma findRgb_none {l : List Char} (h : ∀ c ∈ l, c ≠ 'r') : findRgb l = none := by
  induction l with
  | nil => rfl
  | cons c t ih =>
    rw [findRgb, matchRgbAt_none t (h c (List.mem_cons_self c t))]
    exact ih fun d hd => h d (List.mem_cons_of_mem c hd)

/-- The hsl pattern cannot match at a position not starting with `'h'`. -/
lemma matchHslAt_none {c : Char} (t : List Char) (hc : c ≠ 'h') :
    matchHslAt (c :: t) = none := by
  rw [matchHslAt.eq_def]
  split <;> simp_all

/-- A string without `'h'` contains no hsl/hsla match. -/
lemma findHsl_none {l : List Char} (h : ∀ c ∈ l, c ≠ 'h') : findHsl l = none := by
  induction l with
  | nil => rfl
  | cons c t ih =>
    rw [findHsl, matchHslAt_none t (h c (List.mem_cons_self c t))]
    exact ih fun d hd => h d (List.mem_cons_of_mem c hd)

/-- A list of `toLower`-fixed characters is fixed by `jsToLowerL`. -/
lemma jsToLowerL_fixed {l : List Char} (h : ∀ c ∈ l, c.toLower = c) :
    jsToLowerL l = l := by
  induction l with
  | nil => rfl
  | cons c t ih =>
    simp only [jsToLowerL, List.map_cons]
    rw [h c (List.mem_cons_self c t),
      show List.map Char.toLower t = jsToLowerL t from rfl,
      ih fun d hd => h d (List.mem_cons_of_mem c hd)]

/-- Any `'#'`-headed hex output of the normalizer is a fixed point of the
normalizer: it matches neither color pattern and is already lowercase. -/
lemma normalizeColorL_hash_fixed {o : List Char}
    (ho : ∀ c ∈ o, isHexOutChar c = true) :
    normalizeColorL ('#' :: o) = '#' :: o := by
  have hchars : ∀ c ∈ '#' :: o, c ≠ 'r' ∧ c ≠ 'h' ∧ c.toLower = c := by
    intro c hc
    rcases List.mem_cons.mp hc with rfl | hmem
    · exact ⟨by decide, by decide, by decide⟩
    · exact hexOut_props (ho c hmem)
  rw [normalizeColorL, findRgb_none fun c hc => (hchars c hc).1,
    findHsl_none fun c hc => (hchars c hc).2.1]
  exact jsToLowerL_fixed fun c hc => (hchars c hc).2.2

/-- The rgb branch of the normalizer emits only hex-output characters. -/
lemma rgbBranch_hexOut (r g b : Nat) :
    ∀ c ∈ rgbHexChannel r ++ rgbHexChannel g ++ rgbHexChannel b,
      isHexOutChar c = true := by
  intro c hc
  rcases List.mem_append.mp hc with h1 | h3
  · rcases List.mem_append.mp h1 with h1a | h1b
    · exact rgbHexChannel_hexOut _ _ h1a
    · exact rgbHexChannel_hexOut _ _ h1b
  · exact rgbHexChannel_hexOut _ _ h3

/-- Claim C7, counterexample. Color normalization is not idempotent on every
color string: the rgb pattern is case-sensitive, so `"RGB(0, 0, 0)"` is only
lowercased by the first application (to `"rgb(0, 0, 0)"`), and the second
application then converts it to `"#000000"`. -/
theorem normalizeColor_not_idempotent_uppercase :
    normalizeColor "RGB(0, 0, 0)" = "rgb(0, 0, 0)" ∧
    normalizeColor (normalizeColor "RGB(0, 0, 0)") = "#000000" ∧
    normalizeColor (normalizeColor "RGB(0, 0, 0)") ≠ normalizeColor "RGB(0, 0, 0)" := by
  refine ⟨?_, ?_, ?_⟩ <;> decide

/-- Claim C7, amended. On every color string that is already lowercase (every
string actually produced by computed style reads is), normalization is
idempotent: applying it twice returns the same result as applying it once;
in particular an already-normalized lowercase hex value is returned
unchanged. -/
theorem normalizeColor_idempotent_on_lowercase (s : String)
    (h : jsToLower s = s) :
    normalizeColor (normalizeColor s) = normalizeColor s := by
  have hdata : jsToLowerL s.data = s.data := congrArg String.data h
  show (⟨normalizeColorL (normalizeColorL s.data)⟩ : String) = ⟨normalizeColorL s.data⟩
  congr 1
  rcases hrgb : findRgb s.data with _ | ⟨⟨r, g, b⟩⟩
  · rcases hhsl : findHsl s.data with _ | ⟨⟨hh, hs, hl⟩⟩
    · have hin : normalizeColorL s.data = s.data := by
        rw [normalizeColorL, hrgb, hhsl, hdata]
      rw [hin, hin]
    · have hin : normalizeColorL s.data = hslBranch hh hs hl := by
        rw [normalizeColorL, hrgb, hhsl]
      rw [hin, hslBranch]
      refine normalizeColorL_hash_fixed ?_
      intro c hc
      rcases List.mem_append.mp hc with h1 | h3
      · rcases List.mem_append.mp h1 with h1a | h1b
        · exact hslToHexChannel_hexOut _ _ _ h1a
        · exact hslToHexChannel_hexOut _ _ _ h1b
      · exact hslToHexChannel_hexOut _ _ _ h3
  · have hin : normalizeColorL s.data =
        '#' :: (rgbHexChannel r ++ rgbHexChannel g ++ rgbHexChannel b) := by
      rw [normalizeColorL, hrgb]
    rw [hin]
    exact normalizeColorL_hash_fixed (rgbBranch_hexOut r g b)

/-- Witness for `normalizeColor_idempotent_on_lowercase` at the lowercase
inputs `"rgb(1, 2, 3)"` and the already-normalized hex `"#aabbcc"`. -/
theorem normalizeColor_idempotent_on_lowercase_witness :
    jsToLower "rgb(1, 2, 3)" = "rgb(1, 2, 3)" ∧
    normalizeColor (normalizeColor "rgb(1, 2, 3)") = normalizeColor "rgb(1, 2, 3)" ∧
    jsToLower "#aabbcc" = "#aabbcc" ∧
    normalizeColor (normalizeColor "#aabbcc") = normalizeColor "#aabbcc" :=
  ⟨by decide, normalizeColor_idempotent_on_lowercase _ (by decide),
    by decide, normalizeColor_idempotent_on_lowercase _ (by decide)⟩

end DesignExtract
